import Mathlib

/-!
Verification of the SPARQL query-routing and caching layer of the
medieval-charters-kg backend (`backend/routes/sparql.js`).

The JavaScript route handler is shallowly embedded: query strings become
`List Char`, the JSON values exchanged with clients and upstream endpoints
become an inductive `Json` type, the node-cache instance becomes an explicit
association list with insertion timestamps, and the single axios call becomes
an oracle `Endpoint → UpstreamOutcome` supplied to the executor.  Machine-level
concerns (event loop, sockets) are outside the model; every branch of the
handler is translated.
-/

namespace MedievalCharters

/-- Query texts and other JavaScript strings are modelled as lists of
unicode scalar values. -/
abbrev Str := List Char

/-- `String.prototype.includes(needle)`: `needle` occurs contiguously in `s`.
Executable model: some tail of `s` starts with `needle`. -/
def strIncludes (s needle : Str) : Bool :=
  s.tails.any fun t => needle.isPrefixOf t

/-- Specification-level statement that `needle` occurs contiguously in `s`. -/
def ContainsSubstr (s needle : Str) : Prop :=
  ∃ pre post, pre ++ needle ++ post = s

/-- The two upstream SPARQL endpoints the route can target. -/
inductive Endpoint where
  | wikibase
  | wikidata
deriving DecidableEq

/-- `isWikidataQuery` from `backend/routes/sparql.js`:
`query.includes('wdt:P625') && (query.includes('<http://www.wikidata.org/entity/')
|| query.includes('VALUES ?wdItem') || query.includes('VALUES ?residenceWdItem'))`. -/
def isWikidataQuery (query : Str) : Bool :=
  strIncludes query ("wdt:P625".toList) &&
    (strIncludes query ("<http://www.wikidata.org/entity/".toList) ||
     strIncludes query ("VALUES ?wdItem".toList) ||
     strIncludes query ("VALUES ?residenceWdItem".toList))

/-- `const endpoint = isWikidataQuery ? WIKIDATA_SPARQL_ENDPOINT :
WIKIBASE_SPARQL_ENDPOINT`. -/
def selectEndpoint (query : Str) : Endpoint :=
  if isWikidataQuery query then Endpoint.wikidata else Endpoint.wikibase

/-! ### Cache key: `Buffer.from(query).toString('base64')`

`Buffer.from` takes the UTF-8 bytes of the query string; `toString('base64')`
is RFC 4648 base64 with `=` padding. -/

/-- UTF-8 encoding of a single unicode scalar value (what `Buffer.from`
does to each character of the query string). -/
def utf8EncodeChar (c : Char) : List Nat :=
  let n := c.toNat
  if n < 0x80 then [n]
  else if n < 0x800 then [0xC0 + n / 64, 0x80 + n % 64]
  else if n < 0x10000 then [0xE0 + n / 4096, 0x80 + n / 64 % 64, 0x80 + n % 64]
  else [0xF0 + n / 262144, 0x80 + n / 4096 % 64, 0x80 + n / 64 % 64, 0x80 + n % 64]

/-- UTF-8 encoding of a string: the byte sequence `Buffer.from(query)` holds. -/
def utf8Encode : Str → List Nat
  | [] => []
  | c :: cs => utf8EncodeChar c ++ utf8Encode cs

/-- The RFC 4648 base64 alphabet, in order. -/
def base64Alphabet : List Char :=
  "ABCDEFGHIJKLMNOPQRSTUVWXYZabcdefghijklmnopqrstuvwxyz0123456789+/".toList

/-- Character for a 6-bit group (the default is never reached on 6-bit input). -/
def b64Char (n : Nat) : Char := base64Alphabet.getD n 'A'

/-- RFC 4648 base64 of a byte list, with `=` padding, as produced by
`buffer.toString('base64')`. -/
def base64Encode : List Nat → List Char
  | [] => []
  | [b0] =>
      [b64Char (b0 / 4), b64Char (b0 % 4 * 16), '=', '=']
  | [b0, b1] =>
      [b64Char (b0 / 4), b64Char (b0 % 4 * 16 + b1 / 16), b64Char (b1 % 16 * 4), '=']
  | b0 :: b1 :: b2 :: rest =>
      b64Char (b0 / 4) :: b64Char (b0 % 4 * 16 + b1 / 16) ::
        b64Char (b1 % 16 * 4 + b2 / 64) :: b64Char (b2 % 64) :: base64Encode rest

/-- `const cacheKey = Buffer.from(query).toString('base64')`. -/
def cacheKey (query : Str) : Str := base64Encode (utf8Encode query)

/-! ### JSON values -/

/-- JSON values, as parsed by the express body parser and returned by axios.
Numbers are modelled as integers; the request bodies and upstream responses
relevant here carry no fractional numerics. -/
inductive Json where
  | null
  | bool (b : Bool)
  | num (n : Int)
  | str (s : Str)
  | arr (elems : List Json)
  | obj (fields : List (Str × Json))

/-- Field access on a JSON value: `v.name` in JavaScript, `undefined`
(here `none`) when `v` is not an object or lacks the field. -/
def getField (v : Json) (name : Str) : Option Json :=
  match v with
  | Json.obj fields => (fields.find? fun f => f.1 == name).map fun f => f.2
  | _ => none

/-- JavaScript falsiness of `v.query` where absence is `none`: `undefined`,
`null`, `false`, `0` and `''` are falsy, everything else appearing in a parsed
JSON body is truthy. -/
def jsFalsy : Option Json → Bool
  | none => true
  | some Json.null => true
  | some (Json.bool b) => !b
  | some (Json.num n) => n == 0
  | some (Json.str s) => s.isEmpty
  | some (Json.arr _) => false
  | some (Json.obj _) => false

/-! ### The result cache

Modelled from the spec: the `node-cache` instance (`new NodeCache({ stdTTL:
3600, checkperiod: 600 })`) is a third-party dependency whose source is not
part of this repository.  Its behaviour is taken from §4.2 of the spec: a
key-value store whose entries carry their insertion time, live for 3600
seconds from insertion, and are never returned once expired (lazy expiration
on read).  Time is in seconds. -/

/-- Cache contents: key, stored JSON value, insertion time (seconds). -/
abbrev Cache := List (Str × Json × Nat)

/-- Modelled from the spec: `queryCache.get(key)` at time `now` — the stored
value if a live (< 3600 s old) entry for `key` exists, otherwise a miss. -/
def cacheGet (c : Cache) (key : Str) (now : Nat) : Option Json :=
  match c.find? fun e => e.1 == key with
  | some (_, v, tIns) => if now < tIns + 3600 then some v else none
  | none => none

/-- Modelled from the spec: `queryCache.set(key, value)` at time `now` —
replaces any previous entry for `key`, stamping the insertion time. -/
def cacheSet (c : Cache) (key : Str) (v : Json) (now : Nat) : Cache :=
  (key, v, now) :: c.filter fun e => !(e.1 == key)

/-! ### Upstream call and the route handler -/

/-- Outcome of the single axios GET to the chosen endpoint, covering the
branches the handler distinguishes: a 2xx response (axios resolves), an error
carrying a response (`error.response`, with status, parsed body when present,
and status text), an error with a request but no response (`error.request`),
and a setup failure before any request existed (`error.message`). -/
inductive UpstreamOutcome where
  | success (body : Json)
  | respError (status : Nat) (data : Option Json) (statusText : Str)
  | reqError
  | setupError (message : Str)

/-- An HTTP response written by the handler: status code and JSON body. -/
structure HttpResponse where
  status : Nat
  body : Json

/-- Outcome of one request as the model sees it: the HTTP response written
(`none` when the handler threw and no response was written — the async
handler's rejection is not caught by express 4), the cache after the
request, and the number of upstream calls performed. -/
structure ReqResult where
  response : Option HttpResponse
  cache : Cache
  upstreamCalls : Nat

/-- JavaScript truthiness of an optional value (`if (cachedResult)`). -/
def jsTruthy (v : Option Json) : Bool := !(jsFalsy v)

/-- `error.response?.data?.message`: the raw field value when `data` is an
object carrying it, `none` (i.e. `undefined`) when `data` is absent, not an
object, or lacks the field.  Property access on non-object non-nullish
values yields `undefined`, never a throw. -/
def messageField (data : Option Json) : Option Json :=
  match data with
  | some (Json.obj fields) =>
      (fields.find? fun f => f.1 == ("message".toList)).map fun f => f.2
  | _ => none

mutual

/-- JavaScript `String(v)` / template-literal coercion of a JSON value:
numbers and booleans print, arrays join their elements with commas (`null`
elements become empty), plain objects print as `[object Object]`. -/
def jsStringOfJson : Json → Str
  | Json.null => "null".toList
  | Json.bool b => if b then "true".toList else "false".toList
  | Json.num n => (toString n).toList
  | Json.str s => s
  | Json.arr elems => jsArrayElems elems
  | Json.obj _ => "[object Object]".toList

/-- `Array.prototype.join(',')` as used by array-to-string coercion. -/
def jsArrayElems : List Json → Str
  | [] => []
  | [Json.null] => []
  | [e] => jsStringOfJson e
  | Json.null :: rest => (",".toList) ++ jsArrayElems rest
  | e :: rest => jsStringOfJson e ++ (",".toList) ++ jsArrayElems rest

end

/-- `Array.prototype.includes('syntax')` membership test for one element:
strict equality holds only against the exact string `syntax`. -/
def isSyntaxString (e : Json) : Bool :=
  match e with
  | Json.str s => s == ("syntax".toList)
  | _ => false

/-- Node's `TypeError` message thrown by line 90's `response.data.results`
access when the 2xx body is JSON `null`. -/
def nullReadMessage : Str :=
  "Cannot read properties of null (reading 'results')".toList

/-- Body returned on the syntax-error branch:
`{ message: 'SPARQL Syntax Error: ' + (data?.message || 'Unknown syntax
error'), error: data, query_excerpt: query.substring(0, 500) + '...' }`,
where `m` is the `message` field value (string, or array on the
`Array.includes` path) coerced by the template literal. -/
def syntaxErrorBody (query : Str) (m : Json) (d : Json) : Json :=
  Json.obj
    [("message".toList, Json.str ("SPARQL Syntax Error: ".toList ++
        (if jsFalsy (some m) then ("Unknown syntax error".toList)
         else jsStringOfJson m))),
     ("error".toList, d),
     ("query_excerpt".toList, Json.str (query.take 500 ++ "...".toList))]

/-- Body returned on the generic endpoint-error branch:
`{ message: 'Error from SPARQL endpoint: ' + (data?.message || statusText),
error: data }` (the `error` field is omitted from the serialized body when
`data` is `undefined`; a truthy non-string `message` reaching this line is
coerced by the template literal). -/
def endpointErrorBody (data : Option Json) (statusText : Str) : Json :=
  Json.obj
    (("message".toList,
        Json.str ("Error from SPARQL endpoint: ".toList ++
          (match messageField data with
           | some m => if jsFalsy (some m) then statusText else jsStringOfJson m
           | none => statusText))) ::
      (match data with
       | some d => [("error".toList, d)]
       | none => []))

/-- Body returned when no response was received:
`{ message: 'No response from SPARQL endpoint', error: 'Service unavailable' }`. -/
def noResponseBody : Json :=
  Json.obj
    [("message".toList, Json.str ("No response from SPARQL endpoint".toList)),
     ("error".toList, Json.str ("Service unavailable".toList))]

/-- Body returned on an axios setup failure:
`{ message: 'Error setting up request to SPARQL endpoint', error: error.message }`. -/
def setupErrorBody (msg : Str) : Json :=
  Json.obj
    [("message".toList, Json.str ("Error setting up request to SPARQL endpoint".toList)),
     ("error".toList, Json.str msg)]

/-- The post-validation part of the route handler: cache lookup, endpoint
selection, the single upstream call, caching of a successful result, and
error classification.  Three behaviours of the source are modelled exactly:

* line 49 `if (cachedResult)` tests truthiness, so a live entry holding a
  falsy value is treated as a miss and upstream is called again;
* on a 2xx body, `queryCache.set` runs first and line 90 then reads
  `response.data.results`, which throws on a JSON `null` body — the catch's
  else branch answers 500 with the thrown `TypeError`'s message, after the
  cache was already updated;
* line 104 `message?.includes('syntax')` works for string and array
  `message` values (`Array.prototype.includes` tests membership of the exact
  string), short-circuits on nullish ones, and throws for any other
  non-nullish value (number, boolean, object) — the throw happens inside the
  catch block, so no response is written (`response := none`). -/
def executeQuery (query : Str) (cache : Cache) (now : Nat)
    (upstream : Endpoint → UpstreamOutcome) : ReqResult :=
  let key := cacheKey query
  let cachedResult := cacheGet cache key now
  if jsTruthy cachedResult then
    ⟨some ⟨200, cachedResult.getD Json.null⟩, cache, 0⟩
  else
    match upstream (selectEndpoint query) with
    | UpstreamOutcome.success body =>
        match body with
        | Json.null =>
            ⟨some ⟨500, setupErrorBody nullReadMessage⟩, cacheSet cache key body now, 1⟩
        | _ => ⟨some ⟨200, body⟩, cacheSet cache key body now, 1⟩
    | UpstreamOutcome.respError status data statusText =>
        match messageField data with
        | some (Json.str s) =>
            if strIncludes s ("syntax".toList) then
              ⟨some ⟨status, syntaxErrorBody query (Json.str s) (data.getD Json.null)⟩,
                cache, 1⟩
            else ⟨some ⟨status, endpointErrorBody data statusText⟩, cache, 1⟩
        | some (Json.arr elems) =>
            if elems.any isSyntaxString then
              ⟨some ⟨status, syntaxErrorBody query (Json.arr elems) (data.getD Json.null)⟩,
                cache, 1⟩
            else ⟨some ⟨status, endpointErrorBody data statusText⟩, cache, 1⟩
        | some Json.null => ⟨some ⟨status, endpointErrorBody data statusText⟩, cache, 1⟩
        | none => ⟨some ⟨status, endpointErrorBody data statusText⟩, cache, 1⟩
        | some (Json.num _) => ⟨none, cache, 1⟩
        | some (Json.bool _) => ⟨none, cache, 1⟩
        | some (Json.obj _) => ⟨none, cache, 1⟩
    | UpstreamOutcome.reqError => ⟨some ⟨503, noResponseBody⟩, cache, 1⟩
    | UpstreamOutcome.setupError msg => ⟨some ⟨500, setupErrorBody msg⟩, cache, 1⟩

/-- The `POST /api/sparql` handler: destructures `query` from the request
body, rejects falsy values with HTTP 400, and otherwise runs the executor.
On a truthy non-string `query`, `Buffer.from(query)` throws before anything
else happens, so no response is written, no upstream call is made and the
cache is untouched. -/
def handleSparql (reqBody : Json) (cache : Cache) (now : Nat)
    (upstream : Endpoint → UpstreamOutcome) : ReqResult :=
  let q := getField reqBody ("query".toList)
  if jsFalsy q then
    ⟨some ⟨400, Json.obj [("message".toList,
        Json.str ("SPARQL query is required".toList))]⟩,
      cache, 0⟩
  else
    match q with
    | some (Json.str s) => executeQuery s cache now upstream
    | _ => ⟨none, cache, 0⟩

/-! ### Decoders — proof devices used to establish injectivity of `cacheKey` -/

/-- Index of a character in the base64 alphabet (left inverse of `b64Char`
on 6-bit values). -/
def b64Val (c : Char) : Nat := base64Alphabet.indexOf c

/-- Inverse of `base64Encode` on well-formed encodings. -/
def base64Decode : List Char → List Nat
  | c0 :: c1 :: c2 :: c3 :: rest =>
      if c2 = '=' then [b64Val c0 * 4 + b64Val c1 / 16]
      else if c3 = '=' then
        [b64Val c0 * 4 + b64Val c1 / 16, b64Val c1 % 16 * 16 + b64Val c2 / 4]
      else
        (b64Val c0 * 4 + b64Val c1 / 16) :: (b64Val c1 % 16 * 16 + b64Val c2 / 4) ::
          (b64Val c2 % 4 * 64 + b64Val c3) :: base64Decode rest
  | _ => []

/-- Inverse of `utf8Encode` on well-formed encodings, yielding the scalar
values of the original characters. -/
def utf8Decode : List Nat → List Nat
  | [] => []
  | b :: rest =>
      if b < 0x80 then b :: utf8Decode rest
      else if b < 0xE0 then
        ((b - 0xC0) * 64 + (rest.headD 0) % 64) :: utf8Decode (rest.drop 1)
      else if b < 0xF0 then
        ((b - 0xE0) * 4096 + (rest.headD 0) % 64 * 64 + ((rest.drop 1).headD 0) % 64) ::
          utf8Decode (rest.drop 2)
      else
        ((b - 0xF0) * 262144 + (rest.headD 0) % 64 * 4096 +
            ((rest.drop 1).headD 0) % 64 * 64 + ((rest.drop 2).headD 0) % 64) ::
          utf8Decode (rest.drop 3)
termination_by l => l.length
decreasing_by all_goals simp [List.length_drop] <;> omega

/-! ### Substring test agrees with its specification -/

/-- The executable `includes` test holds exactly when the needle occurs
contiguously in the string. -/
theorem strIncludes_iff (s needle : Str) :
    strIncludes s needle = true ↔ ContainsSubstr s needle := by
  have h2 : ContainsSubstr s needle ↔ ∃ t, needle <+: t ∧ t <:+ s :=
    List.infix_iff_prefix_suffix
  rw [h2]
  simp only [strIncludes, List.any_eq_true, List.isPrefixOf_iff_prefix]
  constructor
  · rintro ⟨t, ht, hp⟩
    exact ⟨t, hp, (List.mem_tails t s).mp ht⟩
  · rintro ⟨t, hp, ht⟩
    exact ⟨t, (List.mem_tails t s).mpr ht, hp⟩

/-- The endpoint-selection heuristic, restated over the specification-level
substring predicate. -/
theorem isWikidataQuery_iff (q : Str) :
    isWikidataQuery q = true ↔
      (ContainsSubstr q ("wdt:P625".toList) ∧
        (ContainsSubstr q ("<http://www.wikidata.org/entity/".toList) ∨
         ContainsSubstr q ("VALUES ?wdItem".toList) ∨
         ContainsSubstr q ("VALUES ?residenceWdItem".toList))) := by
  simp only [isWikidataQuery, Bool.and_eq_true, Bool.or_eq_true, strIncludes_iff, or_assoc]

/-- C1: the endpoint selector chooses Wikidata iff the query contains
`wdt:P625` together with at least one of the three Wikidata markers;
queries with both `wdt:P625` and `<http://www.wikidata.org/entity/` go to
Wikidata, queries lacking `wdt:P625` go to Wikibase, and the selector is
total over the two endpoint values. -/
theorem C1_endpoint_selector (q : Str) :
    (selectEndpoint q = Endpoint.wikidata ↔
      (ContainsSubstr q ("wdt:P625".toList) ∧
        (ContainsSubstr q ("<http://www.wikidata.org/entity/".toList) ∨
         ContainsSubstr q ("VALUES ?wdItem".toList) ∨
         ContainsSubstr q ("VALUES ?residenceWdItem".toList)))) ∧
    (ContainsSubstr q ("wdt:P625".toList) ∧
        ContainsSubstr q ("<http://www.wikidata.org/entity/".toList) →
      selectEndpoint q = Endpoint.wikidata) ∧
    (¬ ContainsSubstr q ("wdt:P625".toList) → selectEndpoint q = Endpoint.wikibase) ∧
    (selectEndpoint q = Endpoint.wikidata ∨ selectEndpoint q = Endpoint.wikibase) := by
  have hiff : selectEndpoint q = Endpoint.wikidata ↔ isWikidataQuery q = true := by
    unfold selectEndpoint
    cases hb : isWikidataQuery q <;> simp
  refine ⟨hiff.trans (isWikidataQuery_iff q), ?_, ?_, ?_⟩
  · intro h
    exact (hiff.trans (isWikidataQuery_iff q)).mpr ⟨h.1, Or.inl h.2⟩
  · intro h
    unfold selectEndpoint
    cases hb : isWikidataQuery q
    · simp
    · exact absurd ((isWikidataQuery_iff q).mp hb).1 h
  · unfold selectEndpoint
    cases isWikidataQuery q <;> simp

/-- Witness for C1: a concrete query containing both `wdt:P625` and the
Wikidata entity marker is routed to Wikidata. -/
theorem C1_endpoint_selector_witness :
    selectEndpoint
        ("SELECT ?c WHERE <http://www.wikidata.org/entity/Q42> wdt:P625 ?c".toList) =
      Endpoint.wikidata :=
  (C1_endpoint_selector _).2.1
    ⟨(strIncludes_iff _ _).mp (by decide), (strIncludes_iff _ _).mp (by decide)⟩

/-! ### Injectivity of the cache key -/

/-- Unicode scalar values are below `0x110000`. -/
theorem char_toNat_lt (c : Char) : c.toNat < 0x110000 := by
  rcases c.valid with h | ⟨_, h⟩
  · exact Nat.lt_trans h (by norm_num)
  · exact h

/-- Characters with equal scalar values are equal. -/
theorem char_toNat_inj {a b : Char} (h : a.toNat = b.toNat) : a = b := by
  rw [← Char.ofNat_toNat a, ← Char.ofNat_toNat b, h]

/-- Each UTF-8 code unit is a byte. -/
theorem utf8EncodeChar_lt (c : Char) : ∀ b ∈ utf8EncodeChar c, b < 256 := by
  have h := char_toNat_lt c
  intro b hb
  simp only [utf8EncodeChar] at hb
  split_ifs at hb with h1 h2 h3
  · simp at hb; omega
  · simp at hb; rcases hb with rfl | rfl <;> omega
  · simp at hb; rcases hb with rfl | rfl | rfl <;> omega
  · simp at hb; rcases hb with rfl | rfl | rfl | rfl <;> omega

/-- Every byte of a UTF-8 encoded string is below 256. -/
theorem utf8Encode_lt (l : Str) : ∀ b ∈ utf8Encode l, b < 256 := by
  induction l with
  | nil => intro b hb; simp [utf8Encode] at hb
  | cons c cs ih =>
    intro b hb
    simp only [utf8Encode, List.mem_append] at hb
    rcases hb with hb | hb
    · exact utf8EncodeChar_lt c b hb
    · exact ih b hb

/-- Decoding a UTF-8 encoding recovers the scalar values. -/
theorem utf8_roundtrip : ∀ l : Str, utf8Decode (utf8Encode l) = l.map Char.toNat
  | [] => by simp [utf8Encode, utf8Decode]
  | c :: cs => by
    have h := char_toNat_lt c
    have ih := utf8_roundtrip cs
    show utf8Decode (utf8EncodeChar c ++ utf8Encode cs) = c.toNat :: cs.map Char.toNat
    simp only [utf8EncodeChar]
    split_ifs with h1 h2 h3
    · simp only [List.cons_append, List.nil_append]
      rw [utf8Decode, if_pos h1, ih]
    · simp only [List.cons_append, List.nil_append]
      rw [utf8Decode, if_neg (by omega), if_pos (by omega)]
      simp only [List.headD_cons, List.drop_one, List.tail_cons]
      rw [ih]
      congr 1
      omega
    · simp only [List.cons_append, List.nil_append]
      rw [utf8Decode, if_neg (by omega), if_neg (by omega), if_pos (by omega)]
      simp only [List.headD_cons, List.drop_one, List.tail_cons, List.drop_succ_cons,
        List.drop_zero]
      rw [ih]
      congr 1
      omega
    · simp only [List.cons_append, List.nil_append]
      rw [utf8Decode, if_neg (by omega), if_neg (by omega), if_neg (by omega)]
      simp only [List.headD_cons, List.drop_one, List.tail_cons, List.drop_succ_cons,
        List.drop_zero]
      rw [ih]
      congr 1
      omega

/-- UTF-8 encoding is injective on strings. -/
theorem utf8Encode_inj {l1 l2 : Str} (h : utf8Encode l1 = utf8Encode l2) : l1 = l2 := by
  have h1 := utf8_roundtrip l1
  have h2 := utf8_roundtrip l2
  rw [h, h2] at h1
  exact List.map_injective_iff.mpr (fun a b hab => char_toNat_inj hab) h1.symm

/-- `b64Val` is a left inverse of `b64Char` on 6-bit values. -/
theorem b64Val_b64Char : ∀ n, n < 64 → b64Val (b64Char n) = n := by decide

/-- Alphabet characters are never the padding character. -/
theorem b64Char_ne_pad : ∀ n, n < 64 → b64Char n ≠ '=' := by decide

/-- Decoding a base64 encoding of a byte list recovers the bytes. -/
theorem base64_roundtrip (fuel : Nat) :
    ∀ l : List Nat, l.length ≤ fuel → (∀ b ∈ l, b < 256) →
      base64Decode (base64Encode l) = l := by
  induction fuel with
  | zero =>
    intro l hl _
    have : l = [] := List.eq_nil_of_length_eq_zero (Nat.le_zero.mp hl)
    subst this
    simp [base64Encode, base64Decode]
  | succ n ih =>
    intro l hl hb
    match l with
    | [] => simp [base64Encode, base64Decode]
    | [b0] =>
      have hb0 : b0 < 256 := hb b0 (by simp)
      simp only [base64Encode]
      rw [base64Decode, if_pos rfl,
        b64Val_b64Char _ (by omega), b64Val_b64Char _ (by omega)]
      congr 1
      omega
    | [b0, b1] =>
      have hb0 : b0 < 256 := hb b0 (by simp)
      have hb1 : b1 < 256 := hb b1 (by simp)
      simp only [base64Encode]
      rw [base64Decode, if_neg (b64Char_ne_pad _ (by omega)), if_pos rfl,
        b64Val_b64Char _ (by omega), b64Val_b64Char _ (by omega),
        b64Val_b64Char _ (by omega)]
      congr 1
      · omega
      · congr 1
        omega
    | b0 :: b1 :: b2 :: rest =>
      have hb0 : b0 < 256 := hb b0 (by simp)
      have hb1 : b1 < 256 := hb b1 (by simp)
      have hb2 : b2 < 256 := hb b2 (by simp)
      have hrest : base64Decode (base64Encode rest) = rest := by
        refine ih rest ?_ fun b hbr => hb b (by simp [hbr])
        have := hl
        simp only [List.length_cons] at this ⊢
        omega
      simp only [base64Encode]
      rw [base64Decode, if_neg (b64Char_ne_pad _ (by omega)),
        if_neg (b64Char_ne_pad _ (by omega)),
        b64Val_b64Char _ (by omega), b64Val_b64Char _ (by omega),
        b64Val_b64Char _ (by omega), b64Val_b64Char _ (by omega), hrest]
      congr 1
      · omega
      · congr 1
        · omega
        · congr 1
          omega

/-- Base64 encoding is injective on byte lists. -/
theorem base64Encode_inj {l1 l2 : List Nat} (hb1 : ∀ b ∈ l1, b < 256)
    (hb2 : ∀ b ∈ l2, b < 256) (h : base64Encode l1 = base64Encode l2) : l1 = l2 := by
  have r1 := base64_roundtrip l1.length l1 le_rfl hb1
  have r2 := base64_roundtrip l2.length l2 le_rfl hb2
  rw [h, r2] at r1
  exact r1.symm

/-- The cache key determines the query text. -/
theorem cacheKey_inj {q q' : Str} (h : cacheKey q = cacheKey q') : q = q' :=
  utf8Encode_inj (base64Encode_inj (utf8Encode_lt q) (utf8Encode_lt q') h)

/-- C6: the cache-key function is stable — computing it twice on the same
query text yields the same key — and injective: textually different query
texts (even differing by a single whitespace character) receive different
keys. -/
theorem C6_cache_key_stable_injective (q q' : Str) :
    cacheKey q = cacheKey q ∧ (q ≠ q' → cacheKey q ≠ cacheKey q') :=
  ⟨rfl, fun hne hk => hne (cacheKey_inj hk)⟩

/-- Witness for C6: two queries differing by one whitespace character have
different cache keys. -/
theorem C6_cache_key_witness :
    cacheKey ("SELECT *".toList) ≠ cacheKey ("SELECT  *".toList) :=
  (C6_cache_key_stable_injective _ _).2 (by decide)

/-! ### Cache behaviour -/

/-- A freshly set entry is returned while it is live. -/
theorem cacheGet_cacheSet_live (c : Cache) (key : Str) (v : Json) (tIns tLook : Nat)
    (h : tLook < tIns + 3600) :
    cacheGet (cacheSet c key v tIns) key tLook = some v := by
  unfold cacheGet cacheSet
  rw [List.find?_cons_of_pos _ (by simp)]
  simp [h]

/-- C4: a cache entry inserted at time `tIns` is a miss for every lookup at
any time from `tIns + 3600` seconds on. -/
theorem C4_cache_entry_expires (c : Cache) (key : Str) (v : Json) (tIns tLook : Nat)
    (h : tIns + 3600 ≤ tLook) :
    cacheGet (cacheSet c key v tIns) key tLook = none := by
  unfold cacheGet cacheSet
  rw [List.find?_cons_of_pos _ (by simp)]
  simp only [if_neg (by omega : ¬ tLook < tIns + 3600)]

/-- Witness for C4: an entry inserted at time 5 is a miss at time 3605. -/
theorem C4_cache_entry_expires_witness :
    cacheGet (cacheSet [] ("SELECT".toList) (Json.obj []) 5) ("SELECT".toList) 3605 = none :=
  C4_cache_entry_expires [] _ _ 5 3605 (by omega)

/-- An uncached (or falsy-cached) query whose upstream returns a 2xx body
other than JSON `null` is cached and answered 200 with the body verbatim. -/
theorem executeQuery_success_nonnull (q : Str) (cache : Cache) (now : Nat)
    (upstream : Endpoint → UpstreamOutcome) (body : Json)
    (hg : jsTruthy (cacheGet cache (cacheKey q) now) = false)
    (hsucc : upstream (selectEndpoint q) = UpstreamOutcome.success body)
    (hnn : body ≠ Json.null) :
    executeQuery q cache now upstream =
      ⟨some ⟨200, body⟩, cacheSet cache (cacheKey q) body now, 1⟩ := by
  cases body
  case null => exact absurd rfl hnn
  all_goals simp [executeQuery, hg, hsucc]

/-- An uncached query whose upstream returns a 2xx JSON `null` body is
cached, the handler then throws reading `response.data.results`, and the
catch answers 500 with the `TypeError`'s message. -/
theorem executeQuery_success_null (q : Str) (cache : Cache) (now : Nat)
    (upstream : Endpoint → UpstreamOutcome)
    (hg : jsTruthy (cacheGet cache (cacheKey q) now) = false)
    (hsucc : upstream (selectEndpoint q) = UpstreamOutcome.success Json.null) :
    executeQuery q cache now upstream =
      ⟨some ⟨500, setupErrorBody nullReadMessage⟩,
       cacheSet cache (cacheKey q) Json.null now, 1⟩ := by
  simp [executeQuery, hg, hsucc]

/-- C2 (counterexample): the claim fails as stated.  A first execution that
succeeds with the falsy 2xx body `0` caches it, but line 49's truthiness
test (`if (cachedResult)`) treats the live falsy entry as a miss: the second
execution calls upstream again (here answered with `reqError`) instead of
making no upstream call and returning the identical result. -/
theorem C2_falsy_cached_body_counterexample :
    executeQuery ("SELECT ?s".toList)
        ((executeQuery ("SELECT ?s".toList) [] 0
            (fun _ => UpstreamOutcome.success (Json.num 0))).cache) 7
        (fun _ => UpstreamOutcome.reqError) ≠
      ⟨(executeQuery ("SELECT ?s".toList) [] 0
          (fun _ => UpstreamOutcome.success (Json.num 0))).response,
       (executeQuery ("SELECT ?s".toList) [] 0
          (fun _ => UpstreamOutcome.success (Json.num 0))).cache, 0⟩ := by
  intro h
  exact absurd (congrArg ReqResult.upstreamCalls h) (by decide)

/-- C2 (amended): after a previously uncached execution that succeeds with a
*truthy* 2xx body, re-executing the same query text while the entry is live
performs no upstream call and returns a byte-for-byte identical result,
whatever the upstream would now answer.  (For a falsy body — `0`, `false`,
`''`, `null` — the truthiness cache-hit test of line 49 treats the live
entry as a miss and upstream is called again.) -/
theorem C2_truthy_cached_execution_idempotent (q : Str) (cache : Cache)
    (t1 t2 : Nat) (upstream upstream2 : Endpoint → UpstreamOutcome) (body : Json)
    (_hq : q ≠ [])
    (hmiss : cacheGet cache (cacheKey q) t1 = none)
    (hsucc : upstream (selectEndpoint q) = UpstreamOutcome.success body)
    (htruthy : jsFalsy (some body) = false)
    (hlive : t2 < t1 + 3600) :
    executeQuery q ((executeQuery q cache t1 upstream).cache) t2 upstream2 =
      ⟨(executeQuery q cache t1 upstream).response,
       (executeQuery q cache t1 upstream).cache, 0⟩ := by
  have hg1 : jsTruthy (cacheGet cache (cacheKey q) t1) = false := by
    rw [hmiss]; rfl
  have hnn : body ≠ Json.null := fun he => by
    subst he; simp [jsFalsy] at htruthy
  rw [executeQuery_success_nonnull q cache t1 upstream body hg1 hsucc hnn]
  simp [executeQuery, cacheGet_cacheSet_live cache (cacheKey q) body t1 t2 hlive,
    jsTruthy, htruthy]

/-- Witness for C2 at a concrete query, cache, truthy body and oracle. -/
theorem C2_truthy_cached_execution_idempotent_witness :
    executeQuery ("SELECT ?s".toList)
        ((executeQuery ("SELECT ?s".toList) [] 0
            (fun _ => UpstreamOutcome.success (Json.obj []))).cache) 7
        (fun _ => UpstreamOutcome.reqError) =
      ⟨(executeQuery ("SELECT ?s".toList) [] 0
          (fun _ => UpstreamOutcome.success (Json.obj []))).response,
       (executeQuery ("SELECT ?s".toList) [] 0
          (fun _ => UpstreamOutcome.success (Json.obj []))).cache, 0⟩ :=
  C2_truthy_cached_execution_idempotent _ _ 0 7 _ _ _ (by decide) rfl rfl rfl
    (by omega)

/-! ### Success and failure classification -/

/-- C9 (counterexample): the claim fails as stated at the 2xx body JSON
`null` — it is cached, but line 90's `response.data.results` access then
throws, and the request is answered 500 via the catch's else branch rather
than 200 with the body. -/
theorem C9_null_body_counterexample :
    (executeQuery ("SELECT ?s".toList) [] 0
        (fun _ => UpstreamOutcome.success Json.null) ≠
      ⟨some ⟨200, Json.null⟩,
       cacheSet [] (cacheKey ("SELECT ?s".toList)) Json.null 0, 1⟩) ∧
    (executeQuery ("SELECT ?s".toList) [] 0
        (fun _ => UpstreamOutcome.success Json.null)).cache =
      cacheSet [] (cacheKey ("SELECT ?s".toList)) Json.null 0 := by
  constructor
  · intro h
    exact absurd (congrArg (fun r => r.response.map HttpResponse.status) h)
      (by decide)
  · rfl

/-- C9 (amended): a 2xx upstream body other than JSON `null` is cached under
the query's key and forwarded to the client verbatim with status 200,
whatever its shape — in particular a body with no `results.bindings` field,
since the quantification places no constraint on the non-null body.  (A 2xx
JSON `null` body is likewise cached, but the logging line then throws on
`response.data.results` and the request is answered 500.) -/
theorem C9_nonnull_success_forwarded_verbatim (q : Str) (cache : Cache)
    (now : Nat) (upstream : Endpoint → UpstreamOutcome) (body : Json)
    (hmiss : cacheGet cache (cacheKey q) now = none)
    (hsucc : upstream (selectEndpoint q) = UpstreamOutcome.success body)
    (hnn : body ≠ Json.null) :
    executeQuery q cache now upstream =
      ⟨some ⟨200, body⟩, cacheSet cache (cacheKey q) body now, 1⟩ :=
  executeQuery_success_nonnull q cache now upstream body (by rw [hmiss]; rfl)
    hsucc hnn

/-- Witness for C9: a 2xx body lacking `results.bindings` is cached and
forwarded unchanged. -/
theorem C9_nonnull_success_forwarded_verbatim_witness :
    executeQuery ("SELECT ?s".toList) [] 3
        (fun _ => UpstreamOutcome.success
          (Json.obj [("unexpected".toList, Json.num 1)])) =
      ⟨some ⟨200, Json.obj [("unexpected".toList, Json.num 1)]⟩,
       cacheSet [] (cacheKey ("SELECT ?s".toList))
         (Json.obj [("unexpected".toList, Json.num 1)]) 3, 1⟩ :=
  C9_nonnull_success_forwarded_verbatim _ _ _ _ _ rfl rfl (by simp)

/-- C8: when the upstream call completes without any response (timeout, DNS
or connection failure), the handler returns HTTP 503 and the body's `error`
field is the string `"Service unavailable"`. -/
theorem C8_no_response_503 (q : Str) (cache : Cache) (now : Nat)
    (upstream : Endpoint → UpstreamOutcome)
    (hmiss : cacheGet cache (cacheKey q) now = none)
    (hup : upstream (selectEndpoint q) = UpstreamOutcome.reqError) :
    executeQuery q cache now upstream = ⟨some ⟨503, noResponseBody⟩, cache, 1⟩ ∧
      getField noResponseBody ("error".toList) =
        some (Json.str ("Service unavailable".toList)) := by
  constructor
  · have hg : jsTruthy (cacheGet cache (cacheKey q) now) = false := by
      rw [hmiss]; rfl
    simp [executeQuery, hg, hup]
  · rfl

/-- Witness for C8 at a concrete query and unreachable upstream. -/
theorem C8_no_response_503_witness :
    executeQuery ("SELECT ?s".toList) [] 0 (fun _ => UpstreamOutcome.reqError) =
        ⟨some ⟨503, noResponseBody⟩, [], 1⟩ ∧
      getField noResponseBody ("error".toList) =
        some (Json.str ("Service unavailable".toList)) :=
  C8_no_response_503 _ _ _ _ rfl rfl

/-- The syntax-error body carries the upstream data under `error`. -/
theorem getField_syntaxErrorBody_error (q : Str) (m d : Json) :
    getField (syntaxErrorBody q m d) ("error".toList) = some d := by
  have hne : (("message".toList : Str) == ("error".toList : Str)) = false := by
    decide
  simp [getField, syntaxErrorBody, List.find?, hne]

/-- The syntax-error body carries the 500-character query excerpt. -/
theorem getField_syntaxErrorBody_excerpt (q : Str) (m d : Json) :
    getField (syntaxErrorBody q m d) ("query_excerpt".toList) =
      some (Json.str (q.take 500 ++ "...".toList)) := by
  have h1 : (("message".toList : Str) == ("query_excerpt".toList : Str)) = false := by
    decide
  have h2 : (("error".toList : Str) == ("query_excerpt".toList : Str)) = false := by
    decide
  simp [getField, syntaxErrorBody, List.find?, h1, h2]

/-- The generic endpoint-error body carries the upstream data under `error`. -/
theorem getField_endpointErrorBody_error (d : Json) (statusText : Str) :
    getField (endpointErrorBody (some d) statusText) ("error".toList) = some d := by
  have hne : (("message".toList : Str) == ("error".toList : Str)) = false := by
    decide
  simp [getField, endpointErrorBody, List.find?, hne]

/-- C7 (counterexample): the claim fails as stated.  When the upstream error
payload carries a non-nullish non-string `message` such as the number `5`,
line 104's `message?.includes('syntax')` throws (`includes` is not a
function on it), the throw happens inside the catch block, and no response
at all is written — in particular none carrying the upstream's status. -/
theorem C7_nonstring_message_counterexample :
    (executeQuery ("SELECT ?s".toList) [] 0
        (fun _ => UpstreamOutcome.respError 400
          (some (Json.obj [("message".toList, Json.num 5)]))
          ("Bad Request".toList))).response = none ∧
    ¬ ∃ respBody : Json,
        executeQuery ("SELECT ?s".toList) [] 0
            (fun _ => UpstreamOutcome.respError 400
              (some (Json.obj [("message".toList, Json.num 5)]))
              ("Bad Request".toList)) =
          ⟨some ⟨400, respBody⟩, [], 1⟩ := by
  constructor
  · rfl
  · rintro ⟨b, hb⟩
    have h2 : (none : Option HttpResponse) = some ⟨400, b⟩ :=
      congrArg ReqResult.response hb
    exact Option.noConfusion h2

/-- C7 (amended): when the upstream responds with a non-2xx status and its
payload's `message` field is absent, `null`, a string or an array — the
values on which line 104's `message?.includes('syntax')` does not throw —
the handler responds with that same status code, echoes the upstream error
payload under `error`, and on syntax-class errors (string `message`
containing `syntax`) the body carries the first 500 characters of the
original query under `query_excerpt`.  (A non-nullish `message` of any other
kind makes the handler throw and write no response.) -/
theorem C7_wellformed_message_error_passthrough (q : Str) (cache : Cache)
    (now : Nat) (upstream : Endpoint → UpstreamOutcome) (status : Nat)
    (data : Option Json) (statusText : Str)
    (hmiss : cacheGet cache (cacheKey q) now = none)
    (hup : upstream (selectEndpoint q) =
      UpstreamOutcome.respError status data statusText)
    (hmsg : messageField data = none ∨ messageField data = some Json.null ∨
        (∃ s, messageField data = some (Json.str s)) ∨
        (∃ elems, messageField data = some (Json.arr elems))) :
    ∃ respBody : Json,
      executeQuery q cache now upstream = ⟨some ⟨status, respBody⟩, cache, 1⟩ ∧
      (∀ d, data = some d → getField respBody ("error".toList) = some d) ∧
      (∀ s, messageField data = some (Json.str s) →
        strIncludes s ("syntax".toList) = true →
        getField respBody ("query_excerpt".toList) =
          some (Json.str (q.take 500 ++ "...".toList))) := by
  have hg : jsTruthy (cacheGet cache (cacheKey q) now) = false := by
    rw [hmiss]; rfl
  rcases hmsg with hm | hm | ⟨s, hm⟩ | ⟨elems, hm⟩
  · refine ⟨endpointErrorBody data statusText, ?_, ?_, ?_⟩
    · simp [executeQuery, hg, hup, hm]
    · rintro d rfl
      exact getField_endpointErrorBody_error d statusText
    · intro s hs
      rw [hm] at hs
      exact absurd hs (by simp)
  · refine ⟨endpointErrorBody data statusText, ?_, ?_, ?_⟩
    · simp [executeQuery, hg, hup, hm]
    · rintro d rfl
      exact getField_endpointErrorBody_error d statusText
    · intro s hs
      rw [hm] at hs
      exact absurd hs (by simp)
  · cases hsyn : strIncludes s ("syntax".toList) with
    | true =>
      have hsyn2 : strIncludes s (['s', 'y', 'n', 't', 'a', 'x'] : Str) = true := hsyn
      refine ⟨syntaxErrorBody q (Json.str s) (data.getD Json.null), ?_, ?_, ?_⟩
      · simp [executeQuery, hg, hup, hm, hsyn, hsyn2]
      · rintro d rfl
        exact getField_syntaxErrorBody_error q (Json.str s) d
      · intro s' hs' _
        exact getField_syntaxErrorBody_excerpt q (Json.str s) _
    | false =>
      have hsyn2 : strIncludes s (['s', 'y', 'n', 't', 'a', 'x'] : Str) = false := hsyn
      refine ⟨endpointErrorBody data statusText, ?_, ?_, ?_⟩
      · simp [executeQuery, hg, hup, hm, hsyn, hsyn2]
      · rintro d rfl
        exact getField_endpointErrorBody_error d statusText
      · intro s' hs' hinc
        rw [hm] at hs'
        injection hs' with h1
        injection h1 with h2
        subst h2
        rw [hsyn] at hinc
        exact Bool.noConfusion hinc
  · cases harr : elems.any isSyntaxString with
    | true =>
      refine ⟨syntaxErrorBody q (Json.arr elems) (data.getD Json.null), ?_, ?_, ?_⟩
      · simp [executeQuery, hg, hup, hm, harr]
      · rintro d rfl
        exact getField_syntaxErrorBody_error q (Json.arr elems) d
      · intro s' hs' _
        rw [hm] at hs'
        injection hs' with h1
        exact Json.noConfusion h1
    | false =>
      refine ⟨endpointErrorBody data statusText, ?_, ?_, ?_⟩
      · simp [executeQuery, hg, hup, hm, harr]
      · rintro d rfl
        exact getField_endpointErrorBody_error d statusText
      · intro s' hs' _
        rw [hm] at hs'
        injection hs' with h1
        exact Json.noConfusion h1

/-- Witness for C7: a concrete upstream 400 with a string syntax message is
surfaced with status 400, the echoed payload and the query excerpt. -/
theorem C7_wellformed_message_error_passthrough_witness :
    ∃ respBody : Json,
      executeQuery ("SELECT (".toList) [] 0
          (fun _ => UpstreamOutcome.respError 400
            (some (Json.obj [("message".toList,
              Json.str ("syntax error at line 1".toList))]))
            ("Bad Request".toList)) =
        ⟨some ⟨400, respBody⟩, [], 1⟩ ∧
      (∀ d, (some (Json.obj [("message".toList,
          Json.str ("syntax error at line 1".toList))]) : Option Json) = some d →
        getField respBody ("error".toList) = some d) ∧
      (∀ s, messageField (some (Json.obj [("message".toList,
            Json.str ("syntax error at line 1".toList))])) =
            some (Json.str s) →
          strIncludes s ("syntax".toList) = true →
        getField respBody ("query_excerpt".toList) =
          some (Json.str (("SELECT (".toList).take 500 ++ "...".toList))) :=
  C7_wellformed_message_error_passthrough _ _ _ _ _ _ _ rfl rfl
    (Or.inr (Or.inr (Or.inl ⟨_, rfl⟩)))

/-! ### Request-level guarantees -/

/-- The executor performs at most one upstream call; its cache is unchanged
except when the upstream returned a 2xx body, which is stored under the
query's key (answered 200, or 500 after the store when the body is JSON
`null`). -/
theorem executeQuery_calls_cache (q : Str) (cache : Cache) (now : Nat)
    (upstream : Endpoint → UpstreamOutcome) :
    (executeQuery q cache now upstream).upstreamCalls ≤ 1 ∧
      ((executeQuery q cache now upstream).cache = cache ∨
        ∃ b, upstream (selectEndpoint q) = UpstreamOutcome.success b ∧
          (executeQuery q cache now upstream).cache =
            cacheSet cache (cacheKey q) b now ∧
          ((b = Json.null ∧ (executeQuery q cache now upstream).response =
              some ⟨500, setupErrorBody nullReadMessage⟩) ∨
           (b ≠ Json.null ∧ (executeQuery q cache now upstream).response =
              some ⟨200, b⟩))) := by
  cases hg : jsTruthy (cacheGet cache (cacheKey q) now) with
  | true =>
    refine ⟨?_, Or.inl ?_⟩ <;> simp [executeQuery, hg]
  | false =>
    cases hu : upstream (selectEndpoint q) with
    | success b =>
      by_cases hb : b = Json.null
      · subst hb
        rw [executeQuery_success_null q cache now upstream hg hu]
        exact ⟨Nat.le_refl 1, Or.inr ⟨Json.null, rfl, rfl, Or.inl ⟨rfl, rfl⟩⟩⟩
      · rw [executeQuery_success_nonnull q cache now upstream b hg hu hb]
        exact ⟨Nat.le_refl 1, Or.inr ⟨b, rfl, rfl, Or.inr ⟨hb, rfl⟩⟩⟩
    | respError status data statusText =>
      refine ⟨?_, Or.inl ?_⟩
      all_goals
        cases hm : messageField data with
        | none => simp [executeQuery, hg, hu, hm]
        | some m =>
          cases m with
          | str s =>
            cases hsyn : strIncludes s ("syntax".toList) with
            | true =>
              have hsyn2 : strIncludes s (['s', 'y', 'n', 't', 'a', 'x'] : Str)
                  = true := hsyn
              simp [executeQuery, hg, hu, hm, hsyn, hsyn2]
            | false =>
              have hsyn2 : strIncludes s (['s', 'y', 'n', 't', 'a', 'x'] : Str)
                  = false := hsyn
              simp [executeQuery, hg, hu, hm, hsyn, hsyn2]
          | arr elems =>
            cases harr : elems.any isSyntaxString <;>
              simp [executeQuery, hg, hu, hm, harr]
          | null => simp [executeQuery, hg, hu, hm]
          | num n => simp [executeQuery, hg, hu, hm]
          | bool bb => simp [executeQuery, hg, hu, hm]
          | obj fields => simp [executeQuery, hg, hu, hm]
    | reqError => refine ⟨?_, Or.inl ?_⟩ <;> simp [executeQuery, hg, hu]
    | setupError msg => refine ⟨?_, Or.inl ?_⟩ <;> simp [executeQuery, hg, hu]

/-- C3 (counterexample): the claim's error-implies-unchanged-cache clause
fails as stated.  On a 2xx JSON `null` body the cache is updated by
`queryCache.set`, line 90 then throws, and the request ends in the HTTP 500
setup-failure response — an error-ending request whose cache differs from
the cache before it. -/
theorem C3_null_body_error_with_modified_cache :
    ((handleSparql (Json.obj [("query".toList, Json.str ("SELECT ?s".toList))])
        [] 0 (fun _ => UpstreamOutcome.success Json.null)).response.map
          HttpResponse.status = some 500) ∧
    (handleSparql (Json.obj [("query".toList, Json.str ("SELECT ?s".toList))])
        [] 0 (fun _ => UpstreamOutcome.success Json.null)).cache ≠ [] := by
  refine ⟨rfl, ?_⟩
  intro h
  exact absurd (congrArg List.length h) (by decide)

/-- C3 (amended): each request performs at most one upstream call, and the
cache is modified only by a successful (2xx) upstream response, whose body is
stored under the query's key; every other path — validation failure, cache
hit, upstream non-2xx, no response, setup failure, or a handler throw —
leaves the cache exactly as it was.  The one error-ending request with a
modified cache is the 2xx JSON `null` body: it is cached and the request
then ends in the 500 setup-failure response. -/
theorem C3_upstream_call_and_cache_discipline (reqBody : Json) (cache : Cache)
    (now : Nat) (upstream : Endpoint → UpstreamOutcome) :
    (handleSparql reqBody cache now upstream).upstreamCalls ≤ 1 ∧
      ((handleSparql reqBody cache now upstream).cache = cache ∨
        ∃ q b, getField reqBody ("query".toList) = some (Json.str q) ∧
          upstream (selectEndpoint q) = UpstreamOutcome.success b ∧
          (handleSparql reqBody cache now upstream).cache =
            cacheSet cache (cacheKey q) b now ∧
          ((b = Json.null ∧ (handleSparql reqBody cache now upstream).response =
              some ⟨500, setupErrorBody nullReadMessage⟩) ∨
           (b ≠ Json.null ∧ (handleSparql reqBody cache now upstream).response =
              some ⟨200, b⟩))) := by
  by_cases hf : jsFalsy (getField reqBody ("query".toList)) = true
  · have he : handleSparql reqBody cache now upstream =
        ⟨some ⟨400, Json.obj [("message".toList,
            Json.str ("SPARQL query is required".toList))]⟩, cache, 0⟩ := by
      unfold handleSparql
      rw [if_pos hf]
    rw [he]
    exact ⟨Nat.zero_le 1, Or.inl rfl⟩
  · have he : handleSparql reqBody cache now upstream =
        (match getField reqBody ("query".toList) with
         | some (Json.str s) => executeQuery s cache now upstream
         | _ => ⟨none, cache, 0⟩) := by
      unfold handleSparql
      rw [if_neg hf]
    cases hq : getField reqBody ("query".toList) with
    | none =>
      have he2 : handleSparql reqBody cache now upstream = ⟨none, cache, 0⟩ := by
        rw [hq] at he; exact he
      rw [he2]
      exact ⟨Nat.zero_le 1, Or.inl rfl⟩
    | some v =>
      cases v with
      | str s =>
        have he2 : handleSparql reqBody cache now upstream =
            executeQuery s cache now upstream := by
          rw [hq] at he; exact he
        rw [he2]
        obtain ⟨h1, h2⟩ := executeQuery_calls_cache s cache now upstream
        refine ⟨h1, ?_⟩
        rcases h2 with hcc | ⟨b, hb1, hb2, hb3⟩
        · exact Or.inl hcc
        · exact Or.inr ⟨s, b, rfl, hb1, hb2, hb3⟩
      | null =>
        have he2 : handleSparql reqBody cache now upstream = ⟨none, cache, 0⟩ := by
          rw [hq] at he; exact he
        rw [he2]
        exact ⟨Nat.zero_le 1, Or.inl rfl⟩
      | bool bb =>
        have he2 : handleSparql reqBody cache now upstream = ⟨none, cache, 0⟩ := by
          rw [hq] at he; exact he
        rw [he2]
        exact ⟨Nat.zero_le 1, Or.inl rfl⟩
      | num n =>
        have he2 : handleSparql reqBody cache now upstream = ⟨none, cache, 0⟩ := by
          rw [hq] at he; exact he
        rw [he2]
        exact ⟨Nat.zero_le 1, Or.inl rfl⟩
      | arr elems =>
        have he2 : handleSparql reqBody cache now upstream = ⟨none, cache, 0⟩ := by
          rw [hq] at he; exact he
        rw [he2]
        exact ⟨Nat.zero_le 1, Or.inl rfl⟩
      | obj fields =>
        have he2 : handleSparql reqBody cache now upstream = ⟨none, cache, 0⟩ := by
          rw [hq] at he; exact he
        rw [he2]
        exact ⟨Nat.zero_le 1, Or.inl rfl⟩

/-- Witness for C3 at a concrete request whose upstream is unreachable. -/
theorem C3_upstream_call_and_cache_discipline_witness :
    (handleSparql (Json.obj [("query".toList, Json.str ("SELECT ?s".toList))])
        [] 0 (fun _ => UpstreamOutcome.reqError)).upstreamCalls ≤ 1 ∧
      ((handleSparql (Json.obj [("query".toList, Json.str ("SELECT ?s".toList))])
          [] 0 (fun _ => UpstreamOutcome.reqError)).cache = [] ∨
        ∃ q b, getField (Json.obj [("query".toList,
            Json.str ("SELECT ?s".toList))]) ("query".toList) =
            some (Json.str q) ∧
          (fun _ => UpstreamOutcome.reqError) (selectEndpoint q) =
            UpstreamOutcome.success b ∧
          (handleSparql (Json.obj [("query".toList,
              Json.str ("SELECT ?s".toList))]) [] 0
              (fun _ => UpstreamOutcome.reqError)).cache =
            cacheSet [] (cacheKey q) b 0 ∧
          ((b = Json.null ∧ (handleSparql (Json.obj [("query".toList,
                Json.str ("SELECT ?s".toList))]) [] 0
                (fun _ => UpstreamOutcome.reqError)).response =
              some ⟨500, setupErrorBody nullReadMessage⟩) ∨
           (b ≠ Json.null ∧ (handleSparql (Json.obj [("query".toList,
                Json.str ("SELECT ?s".toList))]) [] 0
                (fun _ => UpstreamOutcome.reqError)).response =
              some ⟨200, b⟩))) :=
  C3_upstream_call_and_cache_discipline _ _ _ _

/-- C5: a request body with no `query` field, or with an empty-string
`query`, is answered with HTTP 400 and the message `SPARQL query is
required`; no upstream call is made and the cache is untouched. -/
theorem C5_missing_query_rejected (reqBody : Json) (cache : Cache) (now : Nat)
    (upstream : Endpoint → UpstreamOutcome)
    (h : getField reqBody ("query".toList) = none ∨
         getField reqBody ("query".toList) = some (Json.str [])) :
    handleSparql reqBody cache now upstream =
      ⟨some ⟨400, Json.obj [("message".toList,
          Json.str ("SPARQL query is required".toList))]⟩,
       cache, 0⟩ := by
  rcases h with h | h
  · have h' : getField reqBody (['q', 'u', 'e', 'r', 'y'] : Str) = none := h
    simp [handleSparql, h', jsFalsy]
  · have h' : getField reqBody (['q', 'u', 'e', 'r', 'y'] : Str) =
        some (Json.str []) := h
    simp [handleSparql, h', jsFalsy]

/-- Witness for C5: the empty JSON object body is rejected with 400. -/
theorem C5_missing_query_rejected_witness :
    handleSparql (Json.obj []) [] 12 (fun _ => UpstreamOutcome.reqError) =
      ⟨some ⟨400, Json.obj [("message".toList,
          Json.str ("SPARQL query is required".toList))]⟩,
       [], 0⟩ :=
  C5_missing_query_rejected _ _ _ _ (Or.inl rfl)

/-- C10: every falsy `query` value — absent, `null`, `false`, `0` or the
empty string — is rejected with HTTP 400, no upstream contact and an
unchanged cache, because the validation tests JavaScript falsiness rather
than string emptiness. -/
theorem C10_falsy_query_rejected (reqBody : Json) (cache : Cache) (now : Nat)
    (upstream : Endpoint → UpstreamOutcome)
    (h : getField reqBody ("query".toList) = none ∨
         getField reqBody ("query".toList) = some Json.null ∨
         getField reqBody ("query".toList) = some (Json.bool false) ∨
         getField reqBody ("query".toList) = some (Json.num 0) ∨
         getField reqBody ("query".toList) = some (Json.str [])) :
    handleSparql reqBody cache now upstream =
      ⟨some ⟨400, Json.obj [("message".toList,
          Json.str ("SPARQL query is required".toList))]⟩,
       cache, 0⟩ := by
  rcases h with h | h | h | h | h
  · have h' : getField reqBody (['q', 'u', 'e', 'r', 'y'] : Str) = none := h
    simp [handleSparql, h', jsFalsy]
  · have h' : getField reqBody (['q', 'u', 'e', 'r', 'y'] : Str) =
        some Json.null := h
    simp [handleSparql, h', jsFalsy]
  · have h' : getField reqBody (['q', 'u', 'e', 'r', 'y'] : Str) =
        some (Json.bool false) := h
    simp [handleSparql, h', jsFalsy]
  · have h' : getField reqBody (['q', 'u', 'e', 'r', 'y'] : Str) =
        some (Json.num 0) := h
    simp [handleSparql, h', jsFalsy]
  · have h' : getField reqBody (['q', 'u', 'e', 'r', 'y'] : Str) =
        some (Json.str []) := h
    simp [handleSparql, h', jsFalsy]

/-- Witness for C10: a body with `query: null` is rejected with 400. -/
theorem C10_falsy_query_rejected_witness :
    handleSparql (Json.obj [("query".toList, Json.null)]) [] 4
        (fun _ => UpstreamOutcome.reqError) =
      ⟨some ⟨400, Json.obj [("message".toList,
          Json.str ("SPARQL query is required".toList))]⟩,
       [], 0⟩ :=
  C10_falsy_query_rejected _ _ _ _ (Or.inr (Or.inl rfl))

end MedievalCharters
